import Mathlib

/-!
Shallow embedding of the chroma_wave e-paper driver core
(`src/ext/chroma_wave/*.c`) and proofs about it.

Modelling conventions:
* machine bytes are `Nat` values `< 256`; byte operations use `&&&`, `|||`,
  `^^^`, `>>>`, `<<<` exactly as the C source, with explicit masks where the
  C relies on `uint8_t`/`uint16_t` truncation;
* the HAL is an oracle `Env`: `pin k` is the value returned by the k-th
  `DEV_Digital_Read(EPD_BUSY_PIN)` of a run, `cancel k` the value read by the
  k-th read of a device's `volatile int cancel` flag.  A state `St` carries
  the two read counters.  `alloc_ok` resolves whether a `malloc` inside an
  override succeeds;
* emitted SPI / timing traffic is recorded as a `List HalOp` trace;
* C functions returning `int` status codes return `Int × List HalOp`
  (plus the threaded `St` when they poll the HAL);
* `epd_read_busy` takes `useCancel : Bool`: `false` models a call where no
  cancel-flag pointer reaches the function (a NULL / absent third argument),
  in which case the flag is never read, exactly as
  `if (cancel_flag && *cancel_flag)` skips the check for a NULL pointer.
-/

namespace ChromaWave

/-- Pixel formats, from `chroma_wave.h`. -/
inductive PixelFormat
  | mono
  | gray4
  | color4
  | color7
deriving DecidableEq, Repr

/-- BUSY-pin polarity, from `chroma_wave.h`. -/
inductive BusyPolarity
  | activeLow
  | activeHigh
deriving DecidableEq, Repr

/-- `EPD_OK` (`chroma_wave.h`). -/
def EPD_OK : Int := 0

/-- `EPD_ERR_TIMEOUT` (`chroma_wave.h`). -/
def EPD_ERR_TIMEOUT : Int := -1

/-- `EPD_ERR_INIT` (`chroma_wave.h`). -/
def EPD_ERR_INIT : Int := -2

/-- `EPD_ERR_PARAM` (`chroma_wave.h`). -/
def EPD_ERR_PARAM : Int := -3

/-- Modelled from the spec: `EPD_ERR_ALLOC`.  The captured `chroma_wave.h`
stops at `EPD_ERR_PARAM = -3`, but `device.c` and `tier2_overrides.c` use
`EPD_ERR_ALLOC` (the spec's `AllocErr`, a distinct nonzero code raised on
allocator failure); the constant's definition is missing from `src/`.  We
give it the next free code. -/
def EPD_ERR_ALLOC : Int := -4

/-- `EPD_BUSY_TIMEOUT_MS` (`driver_registry.h`). -/
def EPD_BUSY_TIMEOUT_MS : Nat := 5000

/-- One observable HAL event of a run.  `cmd`/`data`/`bulk` are
`epd_send_command` / `epd_send_data` / `epd_send_data_bulk` (their internal
DC/CS writes are below this abstraction), `delay` is `DEV_Delay_ms`,
`pinRead` a `DEV_Digital_Read(EPD_BUSY_PIN)`, `hwReset` the `epd_reset`
pulse. -/
inductive HalOp
  | cmd (b : Nat)
  | data (b : Nat)
  | bulk (bytes : List Nat)
  | delay (ms : Nat)
  | pinRead (v : Nat)
  | hwReset
deriving DecidableEq, Repr

/-- The HAL / flag oracle of a run. -/
structure Env where
  pin : Nat → Nat
  cancel : Nat → Bool

/-- Read counters: `c` counts reads of the cancel flag, `p` reads of the
BUSY pin. -/
structure St where
  c : Nat
  p : Nat
deriving DecidableEq, Repr

/-- "Not busy" test of `epd_read_busy` (`device.c:65-71`): done when the pin
reads 0 under ActiveHigh polarity, 1 under ActiveLow polarity. -/
def busyDone (pol : BusyPolarity) (v : Nat) : Bool :=
  match pol with
  | .activeHigh => v == 0
  | .activeLow => v == 1

/-- `epd_read_busy` (`device.c:50-77`), by remaining loop iterations.
Each iteration first checks the cancel flag (when a flag pointer was
passed), then reads the BUSY pin; a failed poll is followed by
`DEV_Delay_ms(1)`. -/
def epd_read_busy (env : Env) (pol : BusyPolarity) (useCancel : Bool) :
    Nat → St → Int × List HalOp × St
  | 0, st => (EPD_ERR_TIMEOUT, [], st)
  | t + 1, st =>
      let cv := if useCancel then env.cancel st.c else false
      let st1 : St := if useCancel then ⟨st.c + 1, st.p⟩ else st
      if cv then (EPD_ERR_TIMEOUT, [], st1)
      else
        let v := env.pin st1.p
        let st2 : St := ⟨st1.c, st1.p + 1⟩
        if busyDone pol v then (EPD_OK, [.pinRead v], st2)
        else
          let r := epd_read_busy env pol useCancel t st2
          (r.1, .pinRead v :: .delay 1 :: r.2.1, r.2.2)

/-- Number of BUSY-pin polls recorded in a trace. -/
def pollCount (tr : List HalOp) : Nat :=
  tr.countP fun op => match op with
    | .pinRead _ => true
    | _ => false

/-- Per-model configuration (`driver_registry.h`).  Only the fields the
embedded functions read are kept; `init_seq`, `init_fast_seq`,
`init_part_seq` are the C `init_sequence`, `init_fast_sequence`,
`init_partial_sequence` together with their lengths (a NULL optional
sequence is `none`).  The ~40-entry static table itself
(`driver_configs_generated.h`) is input data outside `src/`. -/
structure ModelConfig where
  name : String
  width : Nat
  height : Nat
  pixel_format : PixelFormat
  busy_polarity : BusyPolarity
  display_cmd : Nat
  display_cmd_2 : Nat
  init_seq : List Nat
  init_fast_seq : Option (List Nat)
  init_part_seq : Option (List Nat)
  sleep_cmd : Nat
  sleep_data : Nat

/-- `select_init_sequence` (`driver_registry.c:75-98`): mode 1 = EPD_MODE_FAST,
mode 2 = EPD_MODE_PARTIAL; fall back to the full sequence when the dedicated
sequence is NULL or the mode has none. -/
def select_init_sequence (cfg : ModelConfig) (mode : Nat) : List Nat :=
  match mode with
  | 1 =>
      match cfg.init_fast_seq with
      | some s => s
      | none => cfg.init_seq
  | 2 =>
      match cfg.init_part_seq with
      | some s => s
      | none => cfg.init_seq
  | _ => cfg.init_seq

/-- The init-sequence interpreter loop of `epd_generic_init`
(`driver_registry.c:112-186`).  NOTE the busy-waits run with
`useCancel = false`: the source calls
`epd_read_busy(cfg->busy_polarity, EPD_BUSY_TIMEOUT_MS)` with no
cancel-flag argument (the stale two-parameter prototype of `device.h:11`),
so the flag is never consulted.  The command-record arm mirrors the C
`for` loop: the command byte is emitted after the count byte is read, the
available payload bytes are emitted one by one, and running out of bytes
yields `EPD_ERR_PARAM`. -/
def interp (env : Env) (cfg : ModelConfig) : List Nat → St → Int × List HalOp × St
  | [], st => (EPD_OK, [], st)
  | b :: rest, st =>
      if 0xF0 ≤ b then
        if b = 0xFE then (EPD_OK, [], st)
        else if b = 0xFF then
          let r := epd_read_busy env cfg.busy_polarity false EPD_BUSY_TIMEOUT_MS st
          if r.1 ≠ EPD_OK then (r.1, r.2.1, r.2.2)
          else
            let k := interp env cfg rest r.2.2
            (k.1, r.2.1 ++ k.2.1, k.2.2)
        else if b = 0xFD then
          match rest with
          | [] => (EPD_ERR_PARAM, [], st)
          | d :: rest2 =>
              let k := interp env cfg rest2 st
              (k.1, .delay d :: k.2.1, k.2.2)
        else if b = 0xFC then
          let k := interp env cfg rest st
          (k.1, .hwReset :: k.2.1, k.2.2)
        else if b = 0xFB then
          let r := epd_read_busy env cfg.busy_polarity false EPD_BUSY_TIMEOUT_MS st
          if r.1 ≠ EPD_OK then (r.1, .cmd 0x12 :: r.2.1, r.2.2)
          else
            let k := interp env cfg rest r.2.2
            (k.1, .cmd 0x12 :: (r.2.1 ++ k.2.1), k.2.2)
        else if b = 0xFA then
          let x_end := (cfg.width - 1) / 8
          let y_end := cfg.height - 1
          let k := interp env cfg rest st
          (k.1, .cmd 0x44 :: .data 0x00 :: .data (x_end &&& 0xFF) ::
            .cmd 0x45 :: .data 0x00 :: .data 0x00 ::
            .data (y_end &&& 0xFF) :: .data ((y_end >>> 8) &&& 0xFF) :: k.2.1,
            k.2.2)
        else if b = 0xF9 then
          let k := interp env cfg rest st
          (k.1, .cmd 0x4E :: .data 0x00 :: .cmd 0x4F :: .data 0x00 ::
            .data 0x00 :: k.2.1, k.2.2)
        else
          interp env cfg rest st
      else
        match rest with
        | [] => (EPD_ERR_PARAM, [], st)
        | n :: rest2 =>
            if n ≤ rest2.length then
              let k := interp env cfg (rest2.drop n) st
              (k.1, .cmd b :: ((rest2.take n).map .data ++ k.2.1), k.2.2)
            else (EPD_ERR_PARAM, .cmd b :: rest2.map .data, st)
termination_by l st => l.length
decreasing_by
  all_goals simp [List.length_drop]
  all_goals omega

/-- `epd_generic_init` (`driver_registry.c:100-187`): select the sequence
for the mode, reject a missing/empty sequence, then interpret. -/
def epd_generic_init (env : Env) (cfg : ModelConfig) (mode : Nat) (st : St) :
    Int × List HalOp × St :=
  let seq := select_init_sequence cfg mode
  if seq.length = 0 then (EPD_ERR_PARAM, [], st)
  else interp env cfg seq st

/-- `epd_generic_display` (`driver_registry.c:198-215`).  `buf` is the C
pointer/length pair: `none` is a NULL pointer, `some l` a buffer of
`len = l.length` bytes. -/
def epd_generic_display (cfg : ModelConfig) (buf : Option (List Nat)) :
    Int × List HalOp :=
  match buf with
  | none => (EPD_ERR_PARAM, [])
  | some l =>
      if l.length = 0 then (EPD_ERR_PARAM, [])
      else
        (EPD_OK, [.cmd cfg.display_cmd, .bulk l] ++
          (if cfg.display_cmd_2 ≠ 0 then [.cmd cfg.display_cmd_2] else []))

/-- `acep_post_display` (`tier2_overrides.c:315-336`): `0x04` power-on +
busy, `0x12` refresh + busy, `0x02` power-off + `epd_wait_busy_low`,
then a 200 ms delay. -/
def acep_post_display (env : Env) (cfg : ModelConfig) (st : St) :
    Int × List HalOp × St :=
  let r1 := epd_read_busy env cfg.busy_polarity true EPD_BUSY_TIMEOUT_MS st
  if r1.1 ≠ EPD_OK then (r1.1, [HalOp.cmd 0x04] ++ r1.2.1, r1.2.2)
  else
    let r2 := epd_read_busy env cfg.busy_polarity true EPD_BUSY_TIMEOUT_MS r1.2.2
    if r2.1 ≠ EPD_OK then
      (r2.1, [HalOp.cmd 0x04] ++ r1.2.1 ++ [HalOp.cmd 0x12] ++ r2.2.1, r2.2.2)
    else
      let r3 := epd_read_busy env .activeLow true EPD_BUSY_TIMEOUT_MS r2.2.2
      if r3.1 ≠ EPD_OK then
        (r3.1, [HalOp.cmd 0x04] ++ r1.2.1 ++ [HalOp.cmd 0x12] ++ r2.2.1 ++
          [HalOp.cmd 0x02] ++ r3.2.1, r3.2.2)
      else
        (EPD_OK, [HalOp.cmd 0x04] ++ r1.2.1 ++ [HalOp.cmd 0x12] ++ r2.2.1 ++
          [HalOp.cmd 0x02] ++ r3.2.1 ++ [HalOp.delay 200], r3.2.2)

/-- `epd_7in5_v2_display` (`tier2_overrides.c:415-441`): original buffer on
`display_cmd`, then a byte-inverted copy on `display_cmd_2`.  `alloc_ok`
resolves the `malloc` of the inversion buffer; on failure the function
returns `EPD_ERR_ALLOC` after the first transmission.  Note: the function
receives no cancel flag and performs no cancellation check. -/
def epd_7in5_v2_display (alloc_ok : Bool) (cfg : ModelConfig)
    (buf : Option (List Nat)) : Int × List HalOp :=
  match buf with
  | none => (EPD_ERR_PARAM, [])
  | some l =>
      if l.length = 0 then (EPD_ERR_PARAM, [])
      else if alloc_ok = false then
        (EPD_ERR_ALLOC, [.cmd cfg.display_cmd, .bulk l])
      else
        (EPD_OK, [.cmd cfg.display_cmd, .bulk l, .cmd cfg.display_cmd_2,
          .bulk (l.map fun b => (b &&& 0xFF) ^^^ 0xFF)])

/-- `epd_7in5_v2_post_display` (`tier2_overrides.c:443-450`): `0x12`,
100 ms delay, busy-wait. -/
def epd_7in5_v2_post_display (env : Env) (cfg : ModelConfig) (st : St) :
    Int × List HalOp × St :=
  let r := epd_read_busy env cfg.busy_polarity true EPD_BUSY_TIMEOUT_MS st
  (r.1, [HalOp.cmd 0x12, HalOp.delay 100] ++ r.2.1, r.2.2)

/-- `uc8179_post_display_region` (`tier2_overrides.c:670-680`): busy-wait,
then `0x92` (exit partial mode). -/
def uc8179_post_display_region (env : Env) (cfg : ModelConfig) (st : St) :
    Int × List HalOp × St :=
  let r := epd_read_busy env cfg.busy_polarity true EPD_BUSY_TIMEOUT_MS st
  if r.1 ≠ EPD_OK then (r.1, r.2.1, r.2.2)
  else (EPD_OK, r.2.1 ++ [HalOp.cmd 0x92], r.2.2)

/-- `epd_5in83_v2_display_region` (`tier2_overrides.c:565-608`).  `x y w h`
are the `uint16_t` parameters; intermediate `uint16_t`/`uint8_t` casts are
made explicit with `% 65536` and `&&& 0xFF`. -/
def epd_5in83_v2_display_region (cfg : ModelConfig) (buf : Option (List Nat))
    (x y w h : Nat) : Int × List HalOp :=
  let full_width_bytes := ((cfg.width + 7) / 8) % 65536
  let x_byte_start := (x / 8) % 65536
  let region_width_bytes := ((w + 7) / 8) % 65536
  let x_end := (x + w - 1) % 65536
  let y_end := (y + h - 1) % 65536
  match buf with
  | none => (EPD_ERR_PARAM, [])
  | some l =>
      if l.length = 0 then (EPD_ERR_PARAM, [])
      else if l.length < full_width_bytes * cfg.height then (EPD_ERR_PARAM, [])
      else
        (EPD_OK,
          [.cmd 0x91, .cmd 0x90,
           .data ((x >>> 8) &&& 0xFF), .data (x &&& 0xF8),
           .data ((x_end >>> 8) &&& 0xFF), .data ((x_end ||| 0x07) &&& 0xFF),
           .data ((y >>> 8) &&& 0xFF), .data (y &&& 0xFF),
           .data ((y_end >>> 8) &&& 0xFF), .data (y_end &&& 0xFF),
           .data 0x01, .cmd 0x13] ++
          ((List.range h).map fun row =>
            .bulk ((l.drop ((y + row) * full_width_bytes + x_byte_start)).take
              region_width_bytes)) ++
          [.cmd 0x12, .delay 100])

/-- `find_driver_slot` (`tier2_overrides.c:24-33`): index of the first
name equal to the target, `none` when absent (the C returns NULL). -/
def find_driver_slot : List String → String → Option Nat
  | [], _ => none
  | n :: rest, target =>
      if n = target then some 0
      else (find_driver_slot rest target).map (· + 1)

/-- `tier2_model_names` (`driver_registry.c:15-41`), verbatim. -/
def tier2_model_names : List String :=
  ["epd_13in3k", "epd_1in02d", "epd_1in54", "epd_1in64g", "epd_2in13",
   "epd_2in15g", "epd_2in36g", "epd_2in7", "epd_2in7_v2", "epd_2in9",
   "epd_3in0g", "epd_3in52", "epd_3in7", "epd_4in01f", "epd_4in2",
   "epd_4in26", "epd_4in2_v2", "epd_4in37g", "epd_5in65f", "epd_5in83bc",
   "epd_7in3e", "epd_7in3f", "epd_7in3g", "epd_7in5_v2", "epd_7in5bc"]

/-- A Tier-2 driver's hooks relevant to the full-screen display path
(`epd_driver_t`); `none` is a NULL function pointer. -/
structure Driver where
  custom_display : Option (ModelConfig → Option (List Nat) → Int × List HalOp)
  pre_display : Option (Env → ModelConfig → St → Int × List HalOp × St)
  post_display : Option (Env → ModelConfig → St → Int × List HalOp × St)

/-- `display_without_gvl` (`device.c:224-252`): pre-hook (abort on failure),
data write via `custom_display` or `epd_generic_display`, post-hook only
when the data write returned `EPD_OK`; a failing post-hook overwrites the
result. -/
def display_worker (env : Env) (cfg : ModelConfig) (drv : Option Driver)
    (buf : Option (List Nat)) (st : St) : Int × List HalOp × St :=
  let pre : Int × List HalOp × St :=
    match drv with
    | some d =>
        match d.pre_display with
        | some h => h env cfg st
        | none => (EPD_OK, [], st)
    | none => (EPD_OK, [], st)
  if pre.1 ≠ EPD_OK then pre
  else
    let disp : Int × List HalOp :=
      match drv with
      | some d =>
          match d.custom_display with
          | some f => f cfg buf
          | none => epd_generic_display cfg buf
      | none => epd_generic_display cfg buf
    if disp.1 = EPD_OK then
      match drv with
      | some d =>
          match d.post_display with
          | some h =>
              let po := h env cfg pre.2.2
              (po.1, pre.2.1 ++ disp.2 ++ po.2.1, po.2.2)
          | none => (EPD_OK, pre.2.1 ++ disp.2, pre.2.2)
      | none => (EPD_OK, pre.2.1 ++ disp.2, pre.2.2)
    else (disp.1, pre.2.1 ++ disp.2, pre.2.2)

/-- `display_dual_without_gvl` (`device.c:338-377`): pre-hook, black
channel on `display_cmd`, a cancel-flag check at the buffer boundary
(returning `EPD_ERR_TIMEOUT` without the second transmission when set),
red channel on `display_cmd_2` when nonzero, then the post-hook. -/
def display_dual_worker (env : Env) (cfg : ModelConfig) (drv : Option Driver)
    (black red : List Nat) (st : St) : Int × List HalOp × St :=
  let pre : Int × List HalOp × St :=
    match drv with
    | some d =>
        match d.pre_display with
        | some h => h env cfg st
        | none => (EPD_OK, [], st)
    | none => (EPD_OK, [], st)
  if pre.1 ≠ EPD_OK then pre
  else
    let tr1 : List HalOp := [.cmd cfg.display_cmd, .bulk black]
    if env.cancel pre.2.2.c then
      (EPD_ERR_TIMEOUT, pre.2.1 ++ tr1, ⟨pre.2.2.c + 1, pre.2.2.p⟩)
    else
      let st2 : St := ⟨pre.2.2.c + 1, pre.2.2.p⟩
      let tr2 : List HalOp :=
        if cfg.display_cmd_2 ≠ 0 then [.cmd cfg.display_cmd_2, .bulk red]
        else []
      match drv with
      | some d =>
          match d.post_display with
          | some h =>
              let po := h env cfg st2
              (po.1, pre.2.1 ++ tr1 ++ tr2 ++ po.2.1, po.2.2)
          | none => (EPD_OK, pre.2.1 ++ tr1 ++ tr2, st2)
      | none => (EPD_OK, pre.2.1 ++ tr1 ++ tr2, st2)

/-- Device lifecycle state (`device.h`). -/
inductive DeviceState
  | closed
  | opened
deriving DecidableEq, Repr

/-- A `device_t`: config and driver references plus lifecycle state.  The
runtime cancel flag is represented by the `Env.cancel` oracle of a run. -/
structure Device where
  cfg : ModelConfig
  drv : Option Driver
  state : DeviceState

/-- The typed Ruby error raised by a device call: `rb_eBusyTimeoutError`,
`rb_eDeviceError` with the allocation-failure message, `rb_eDeviceError`
with the generic `failed (rc=..)` message, or `rb_eDeviceError` with
"device is closed". -/
inductive RaisedErr
  | busyTimeout
  | deviceAllocMsg
  | deviceFailed (rc : Int)
  | deviceClosed
deriving DecidableEq, Repr

/-- Result of a public device call: normal `nil` return or a raised
exception. -/
inductive CallOutcome
  | ret
  | raised (e : RaisedErr)
deriving DecidableEq, Repr

/-- `device_epd_display` (`device.c:288-323`): reset the cancel flag, run
`display_without_gvl` off the GVL, then translate the numeric result under
the GVL.  The device struct (in particular `state`) is not written. -/
def device_epd_display (env : Env) (dev : Device) (buf : Option (List Nat)) :
    CallOutcome × Device :=
  match dev.state with
  | .closed => (.raised .deviceClosed, dev)
  | .opened =>
      let r := (display_worker env dev.cfg dev.drv buf ⟨0, 0⟩).1
      (if r = EPD_ERR_TIMEOUT then .raised .busyTimeout
       else if r = EPD_ERR_ALLOC then .raised .deviceAllocMsg
       else if r ≠ EPD_OK then .raised (.deviceFailed r)
       else .ret, dev)

/-- `clear_width_byte` (`device.c:544-554`). -/
def clear_width_byte (width : Nat) (fmt : PixelFormat) : Nat :=
  match fmt with
  | .mono => (width + 7) / 8
  | .gray4 => (width + 3) / 4
  | .color4 => (width + 1) / 2
  | .color7 => (width + 1) / 2

/-- `clear_fill_byte` (`device.c:565-575`). -/
def clear_fill_byte (fmt : PixelFormat) : Nat :=
  match fmt with
  | .mono => 0xFF
  | .gray4 => 0xFF
  | .color4 => 0x11
  | .color7 => 0x11

/-- `device_epd_clear` (`device.c:578-614`): allocate and fill the scratch
buffer, run `display_without_gvl`, translate the result.  Note there is no
`EPD_ERR_ALLOC` arm here: any nonzero result other than timeout raises the
generic `DeviceError`. -/
def device_epd_clear (env : Env) (dev : Device) : CallOutcome × Device :=
  match dev.state with
  | .closed => (.raised .deviceClosed, dev)
  | .opened =>
      let buf := List.replicate
        (clear_width_byte dev.cfg.width dev.cfg.pixel_format * dev.cfg.height)
        (clear_fill_byte dev.cfg.pixel_format)
      let r := (display_worker env dev.cfg dev.drv (some buf) ⟨0, 0⟩).1
      (if r = EPD_ERR_TIMEOUT then .raised .busyTimeout
       else if r ≠ EPD_OK then .raised (.deviceFailed r)
       else .ret, dev)

/-- `calc_width_byte` (`framebuffer.c:5-15`). -/
def calc_width_byte (width : Nat) (fmt : PixelFormat) : Nat :=
  match fmt with
  | .mono => (width + 7) / 8
  | .gray4 => (width + 3) / 4
  | .color4 => (width + 1) / 2
  | .color7 => (width + 1) / 2

/-- A `framebuffer_t` (`framebuffer.h`); the byte buffer is a list of
byte values. -/
structure Framebuffer where
  width : Nat
  height : Nat
  pixel_format : PixelFormat
  width_byte : Nat
  buffer_size : Nat
  buffer : List Nat
deriving DecidableEq, Repr

/-- Well-formedness established by `fb_initialize` (`framebuffer.c:62-91`)
and preserved by every operation: validated dimensions, derived stride and
size fields, a buffer of exactly `buffer_size` bytes, each a byte value. -/
def FbWF (fb : Framebuffer) : Prop :=
  1 ≤ fb.width ∧ fb.width ≤ 4096 ∧ 1 ≤ fb.height ∧ fb.height ≤ 4096 ∧
  fb.width_byte = calc_width_byte fb.width fb.pixel_format ∧
  fb.buffer_size = fb.width_byte * fb.height ∧
  fb.buffer.length = fb.buffer_size ∧
  ∀ b ∈ fb.buffer, b < 256

/-- `fb_set_pixel` (`framebuffer.c:160-206`): silent clip out of bounds;
in bounds, read-modify-write of the single byte addressing `(x, y)`.
`~mask` on a byte is written `0xFF ^^^ mask`. -/
def fb_set_pixel (fb : Framebuffer) (x y color : Nat) : Framebuffer :=
  if fb.width ≤ x ∨ fb.height ≤ y then fb
  else
    let c := color &&& 0xFF
    match fb.pixel_format with
    | .mono =>
        let addr := x / 8 + y * fb.width_byte
        let rdata := fb.buffer.getD addr 0
        let nb := if c = 0 then rdata &&& (0xFF ^^^ (0x80 >>> (x % 8)))
                  else rdata ||| (0x80 >>> (x % 8))
        { fb with buffer := fb.buffer.set addr nb }
    | .gray4 =>
        let addr := x / 4 + y * fb.width_byte
        let c2 := c &&& 0x03
        let rdata := fb.buffer.getD addr 0
        let cleared := rdata &&& (0xFF ^^^ (0xC0 >>> (x % 4 * 2)))
        { fb with buffer := fb.buffer.set addr (cleared ||| ((c2 <<< 6) >>> (x % 4 * 2))) }
    | .color4 =>
        let addr := x / 2 + y * fb.width_byte
        let c2 := c &&& 0x0F
        let rdata := fb.buffer.getD addr 0
        let cleared := rdata &&& (0xFF ^^^ (0xF0 >>> (x % 2 * 4)))
        { fb with buffer := fb.buffer.set addr (cleared ||| ((c2 <<< 4) >>> (x % 2 * 4))) }
    | .color7 =>
        let addr := x / 2 + y * fb.width_byte
        let c2 := c &&& 0x0F
        let rdata := fb.buffer.getD addr 0
        let cleared := rdata &&& (0xFF ^^^ (0xF0 >>> (x % 2 * 4)))
        { fb with buffer := fb.buffer.set addr (cleared ||| ((c2 <<< 4) >>> (x % 2 * 4))) }

/-- `fb_get_pixel` (`framebuffer.c:209-247`): `none` out of bounds, else
the pixel's bits extracted from its byte. -/
def fb_get_pixel (fb : Framebuffer) (x y : Nat) : Option Nat :=
  if fb.width ≤ x ∨ fb.height ≤ y then none
  else some (match fb.pixel_format with
    | .mono => (fb.buffer.getD (x / 8 + y * fb.width_byte) 0 >>> (7 - x % 8)) &&& 0x01
    | .gray4 => (fb.buffer.getD (x / 4 + y * fb.width_byte) 0 >>> (6 - x % 4 * 2)) &&& 0x03
    | .color4 => (fb.buffer.getD (x / 2 + y * fb.width_byte) 0 >>> (4 - x % 2 * 4)) &&& 0x0F
    | .color7 => (fb.buffer.getD (x / 2 + y * fb.width_byte) 0 >>> (4 - x % 2 * 4)) &&& 0x0F)

/-- `fb_clear` (`framebuffer.c:250-279`): memset of the whole buffer with
the format's broadcast fill byte. -/
def fb_clear (fb : Framebuffer) (color : Nat) : Framebuffer :=
  let c := color &&& 0xFF
  let fill : Nat :=
    match fb.pixel_format with
    | .mono => if c = 0 then 0x00 else 0xFF
    | .gray4 =>
        let c2 := c &&& 0x03
        (c2 <<< 6) ||| (c2 <<< 4) ||| (c2 <<< 2) ||| c2
    | .color4 =>
        let c2 := c &&& 0x0F
        (c2 <<< 4) ||| c2
    | .color7 =>
        let c2 := c &&& 0x0F
        (c2 <<< 4) ||| c2
  { fb with buffer := List.replicate fb.buffer_size fill }

/-- Buffer index of the byte holding pixel `(x, y)` for the framebuffer's
format (`framebuffer.c:179,188,197`). -/
def pixel_addr (fb : Framebuffer) (x y : Nat) : Nat :=
  match fb.pixel_format with
  | .mono => x / 8 + y * fb.width_byte
  | .gray4 => x / 4 + y * fb.width_byte
  | .color4 => x / 2 + y * fb.width_byte
  | .color7 => x / 2 + y * fb.width_byte

/-- The largest color value a format's pixel can store (its bit capacity):
the `max_color_for_format` of the round-trip property. -/
def max_color_for_format : PixelFormat → Nat
  | .mono => 1
  | .gray4 => 3
  | .color4 => 15
  | .color7 => 15

/-- Concrete oracle: BUSY pin always idle (0), cancel flag never set. -/
def envIdle : Env := ⟨fun _ => 0, fun _ => false⟩

/-- Concrete oracle: BUSY pin stuck busy-high (1), cancel flag set. -/
def envCancelSet : Env := ⟨fun _ => 1, fun _ => true⟩

/-- Concrete oracle: BUSY pin idle (0), cancel flag set. -/
def envIdleCancelSet : Env := ⟨fun _ => 0, fun _ => true⟩

/-- A concrete `ModelConfig` for witnesses (the static config table is
input data outside `src/`; theorems hypothesize the fields they need). -/
def mkCfg (w h : Nat) (fmt : PixelFormat) (pol : BusyPolarity)
    (dc dc2 : Nat) : ModelConfig :=
  ⟨"cfg_test", w, h, fmt, pol, dc, dc2, [0xFE], none, none, 0x07, 0xA5⟩

/-- The driver slot `tier2_register_overrides` wires for `"epd_7in5_v2"`
(`tier2_overrides.c:813-817`): `custom_display = epd_7in5_v2_display`,
`post_display = epd_7in5_v2_post_display`, no pre-hook. -/
def drv_7in5_v2 (alloc_ok : Bool) : Driver :=
  ⟨some (epd_7in5_v2_display alloc_ok), none, some epd_7in5_v2_post_display⟩

/-- The driver slot `tier2_register_overrides` wires for `"epd_5in65f"`
(`tier2_overrides.c:789-792`): only `post_display = acep_post_display`. -/
def drv_5in65f : Driver := ⟨none, none, some acep_post_display⟩

lemma epd_read_busy_dichotomy (env : Env) (pol : BusyPolarity) (u : Bool) :
    ∀ (t : Nat) (st : St),
      (epd_read_busy env pol u t st).1 = EPD_OK ∨
      (epd_read_busy env pol u t st).1 = EPD_ERR_TIMEOUT := by
  intro t
  induction t with
  | zero => intro st; right; rfl
  | succ t ih =>
      intro st
      cases u with
      | false =>
          cases hd : busyDone pol (env.pin st.p) with
          | true => left; simp [epd_read_busy, hd]
          | false =>
              have h : (epd_read_busy env pol false (t + 1) st).1 =
                  (epd_read_busy env pol false t ⟨st.c, st.p + 1⟩).1 := by
                simp [epd_read_busy, hd]
              rw [h]; exact ih _
      | true =>
          cases hc : env.cancel st.c with
          | true => right; simp [epd_read_busy, hc]
          | false =>
              cases hd : busyDone pol (env.pin st.p) with
              | true => left; simp [epd_read_busy, hc, hd]
              | false =>
                  have h : (epd_read_busy env pol true (t + 1) st).1 =
                      (epd_read_busy env pol true t ⟨st.c + 1, st.p + 1⟩).1 := by
                    simp [epd_read_busy, hc, hd]
                  rw [h]; exact ih _

lemma epd_read_busy_cancel_first (env : Env) (pol : BusyPolarity) (t : Nat)
    (st : St) (h : env.cancel st.c = true) :
    epd_read_busy env pol true (t + 1) st =
      (EPD_ERR_TIMEOUT, [], ⟨st.c + 1, st.p⟩) := by
  simp [epd_read_busy, h]

lemma epd_read_busy_ok_iff (env : Env) (pol : BusyPolarity) :
    ∀ (t : Nat) (st : St),
      (epd_read_busy env pol true t st).1 = EPD_OK ↔
        ∃ i, i < t ∧ (∀ j, j ≤ i → env.cancel (st.c + j) = false) ∧
          (∀ j, j < i → busyDone pol (env.pin (st.p + j)) = false) ∧
          busyDone pol (env.pin (st.p + i)) = true := by
  intro t
  induction t with
  | zero =>
      intro st
      constructor
      · intro h
        exact absurd h (by simp [epd_read_busy, EPD_ERR_TIMEOUT, EPD_OK])
      · rintro ⟨i, hi, -⟩
        omega
  | succ t ih =>
      intro st
      by_cases hc : env.cancel st.c = true
      · rw [epd_read_busy_cancel_first env pol t st hc]
        constructor
        · intro h
          exact absurd h (by simp [EPD_ERR_TIMEOUT, EPD_OK])
        · rintro ⟨i, hi, hcan, -, -⟩
          have h0 := hcan 0 (Nat.zero_le i)
          rw [Nat.add_zero] at h0
          rw [hc] at h0
          cases h0
      · have hc' : env.cancel st.c = false := by
          cases h : env.cancel st.c
          · rfl
          · exact absurd h hc
        by_cases hd : busyDone pol (env.pin st.p) = true
        · have hstep : (epd_read_busy env pol true (t + 1) st).1 = EPD_OK := by
            simp [epd_read_busy, hc', hd]
          rw [hstep]
          constructor
          · intro _
            refine ⟨0, Nat.succ_pos t, ?_, ?_, ?_⟩
            · intro j hj
              have : j = 0 := Nat.le_zero.mp hj
              subst this
              simpa using hc'
            · intro j hj; omega
            · simpa using hd
          · intro _; rfl
        · have hd' : busyDone pol (env.pin st.p) = false := by
            cases h : busyDone pol (env.pin st.p)
            · rfl
            · exact absurd h hd
          have hstep : (epd_read_busy env pol true (t + 1) st).1 =
              (epd_read_busy env pol true t ⟨st.c + 1, st.p + 1⟩).1 := by
            simp [epd_read_busy, hc', hd']
          rw [hstep, ih ⟨st.c + 1, st.p + 1⟩]
          constructor
          · rintro ⟨i, hi, hcan, hpin, hsucc⟩
            refine ⟨i + 1, by omega, ?_, ?_, ?_⟩
            · intro j hj
              cases j with
              | zero => simpa using hc'
              | succ j =>
                  have := hcan j (by omega)
                  simpa [Nat.add_assoc, Nat.add_comm 1 j] using this
            · intro j hj
              cases j with
              | zero => simpa using hd'
              | succ j =>
                  have := hpin j (by omega)
                  simpa [Nat.add_assoc, Nat.add_comm 1 j] using this
            · simpa [Nat.add_assoc, Nat.add_comm 1 i] using hsucc
          · rintro ⟨i, hi, hcan, hpin, hsucc⟩
            cases i with
            | zero =>
                rw [Nat.add_zero] at hsucc
                rw [hsucc] at hd'
                cases hd'
            | succ i =>
                refine ⟨i, by omega, ?_, ?_, ?_⟩
                · intro j hj
                  have := hcan (j + 1) (by omega)
                  simpa [Nat.add_assoc, Nat.add_comm 1 j] using this
                · intro j hj
                  have := hpin (j + 1) (by omega)
                  simpa [Nat.add_assoc, Nat.add_comm 1 j] using this
                · simpa [Nat.add_assoc, Nat.add_comm 1 i] using hsucc

lemma pollCount_cons_poll_delay (v m : Nat) (tr : List HalOp) :
    pollCount (.pinRead v :: .delay m :: tr) = pollCount tr + 1 := by
  simp [pollCount, List.countP_cons]

lemma epd_read_busy_poll_bound (env : Env) (pol : BusyPolarity) (u : Bool) :
    ∀ (t : Nat) (st : St),
      pollCount (epd_read_busy env pol u t st).2.1 ≤ t := by
  intro t
  induction t with
  | zero => intro st; simp [epd_read_busy, pollCount]
  | succ t ih =>
      intro st
      cases u with
      | false =>
          cases hd : busyDone pol (env.pin st.p) with
          | true => simp [epd_read_busy, hd, pollCount]
          | false =>
              have h : (epd_read_busy env pol false (t + 1) st).2.1 =
                  .pinRead (env.pin st.p) :: .delay 1 ::
                    (epd_read_busy env pol false t ⟨st.c, st.p + 1⟩).2.1 := by
                simp [epd_read_busy, hd]
              rw [h, pollCount_cons_poll_delay]
              have := ih (⟨st.c, st.p + 1⟩ : St)
              omega
      | true =>
          cases hc : env.cancel st.c with
          | true => simp [epd_read_busy, hc, pollCount]
          | false =>
              cases hd : busyDone pol (env.pin st.p) with
              | true => simp [epd_read_busy, hc, hd, pollCount]
              | false =>
                  have h : (epd_read_busy env pol true (t + 1) st).2.1 =
                      .pinRead (env.pin st.p) :: .delay 1 ::
                        (epd_read_busy env pol true t ⟨st.c + 1, st.p + 1⟩).2.1 := by
                    simp [epd_read_busy, hc, hd]
                  rw [h, pollCount_cons_poll_delay]
                  have := ih (⟨st.c + 1, st.p + 1⟩ : St)
                  omega


/-- C3: `epd_read_busy` polls the BUSY pin at most `timeout_ms` times
(once per millisecond, a `delay 1` after each failed poll); it returns
`EPD_OK` exactly when some poll within the timeout reads the idle level
(0 under ActiveHigh, 1 under ActiveLow) with no earlier successful poll
and no cancel-flag read returning true up to that poll; every other run,
in particular any run whose first cancel check already sees the flag set,
returns `EPD_ERR_TIMEOUT`. -/
theorem c3_read_busy_contract (env : Env) (pol : BusyPolarity)
    (timeout : Nat) (st : St) :
    ((epd_read_busy env pol true timeout st).1 = EPD_OK ∨
      (epd_read_busy env pol true timeout st).1 = EPD_ERR_TIMEOUT) ∧
    ((epd_read_busy env pol true timeout st).1 = EPD_OK ↔
      ∃ i, i < timeout ∧ (∀ j, j ≤ i → env.cancel (st.c + j) = false) ∧
        (∀ j, j < i → busyDone pol (env.pin (st.p + j)) = false) ∧
        busyDone pol (env.pin (st.p + i)) = true) ∧
    pollCount (epd_read_busy env pol true timeout st).2.1 ≤ timeout ∧
    (env.cancel st.c = true →
      (epd_read_busy env pol true timeout st).1 = EPD_ERR_TIMEOUT) := by
  refine ⟨epd_read_busy_dichotomy env pol true timeout st,
    epd_read_busy_ok_iff env pol timeout st,
    epd_read_busy_poll_bound env pol true timeout st, ?_⟩
  intro hc
  cases timeout with
  | zero => rfl
  | succ t => rw [epd_read_busy_cancel_first env pol t st hc]

/-- Witness for C3: with the cancel flag set, a 5-iteration wait returns
the timeout error immediately. -/
theorem c3_read_busy_contract_witness :
    (epd_read_busy envCancelSet .activeHigh true 5 ⟨0, 0⟩).1 =
      EPD_ERR_TIMEOUT :=
  (c3_read_busy_contract envCancelSet .activeHigh 5 ⟨0, 0⟩).2.2.2 rfl

lemma interp_nil (env : Env) (cfg : ModelConfig) (st : St) :
    interp env cfg [] st = (EPD_OK, [], st) := by
  simp [interp]

lemma interp_cmd_record (env : Env) (cfg : ModelConfig) (st : St)
    (b n : Nat) (rest : List Nat) (hb : b < 0xF0) (hn : n ≤ rest.length) :
    interp env cfg (b :: n :: rest) st =
      ((interp env cfg (rest.drop n) st).1,
        .cmd b :: ((rest.take n).map .data ++ (interp env cfg (rest.drop n) st).2.1),
        (interp env cfg (rest.drop n) st).2.2) := by
  have hb' : ¬ (0xF0 ≤ b) := by omega
  simp [interp, hb', hn]

lemma interp_cmd_missing_count (env : Env) (cfg : ModelConfig) (st : St)
    (b : Nat) (hb : b < 0xF0) :
    interp env cfg [b] st = (EPD_ERR_PARAM, [], st) := by
  have hb' : ¬ (0xF0 ≤ b) := by omega
  simp [interp, hb']

lemma interp_cmd_truncated_payload (env : Env) (cfg : ModelConfig) (st : St)
    (b n : Nat) (rest : List Nat) (hb : b < 0xF0) (hn : rest.length < n) :
    interp env cfg (b :: n :: rest) st =
      (EPD_ERR_PARAM, .cmd b :: rest.map .data, st) := by
  have hb' : ¬ (0xF0 ≤ b) := by omega
  have hn' : ¬ (n ≤ rest.length) := by omega
  simp [interp, hb', hn']

lemma interp_delay_truncated (env : Env) (cfg : ModelConfig) (st : St) :
    interp env cfg [0xFD] st = (EPD_ERR_PARAM, [], st) := by
  rw [interp]
  rfl

lemma interp_unknown_sentinel (env : Env) (cfg : ModelConfig) (st : St)
    (s : Nat) (rest : List Nat) (hlo : 0xF0 ≤ s) (hhi : s ≤ 0xF8) :
    interp env cfg (s :: rest) st = interp env cfg rest st := by
  have h1 : s ≠ 0xFE := by omega
  have h2 : s ≠ 0xFF := by omega
  have h3 : s ≠ 0xFD := by omega
  have h4 : s ≠ 0xFC := by omega
  have h5 : s ≠ 0xFB := by omega
  have h6 : s ≠ 0xFA := by omega
  have h7 : s ≠ 0xF9 := by omega
  rw [interp.eq_def]
  simp only [hlo, h1, h2, h3, h4, h5, h6, h7, if_true, if_false]

/-- C4: the init-sequence interpreter, on every byte stream: a byte
`b < 0xF0` starts a command record, emitting `send_command(b)` and then
exactly `n` `send_data` calls where `n` is the following count byte; it
returns `EPD_ERR_PARAM` when the count byte, a payload byte, or the
`DELAY_MS` argument byte lies past the end of the stream; sentinels in
`0xF0..0xF8` (the unrecognized part of the sentinel range) are skipped;
and reaching the end of the stream without an `0xFE` END sentinel returns
`EPD_OK`. -/
theorem c4_interpreter_contract (env : Env) (cfg : ModelConfig) :
    (∀ (st : St) (b n : Nat) (rest : List Nat), b < 0xF0 → n ≤ rest.length →
      interp env cfg (b :: n :: rest) st =
        ((interp env cfg (rest.drop n) st).1,
          .cmd b :: ((rest.take n).map .data ++
            (interp env cfg (rest.drop n) st).2.1),
          (interp env cfg (rest.drop n) st).2.2)) ∧
    (∀ (st : St) (b : Nat), b < 0xF0 →
      interp env cfg [b] st = (EPD_ERR_PARAM, [], st)) ∧
    (∀ (st : St) (b n : Nat) (rest : List Nat), b < 0xF0 → rest.length < n →
      interp env cfg (b :: n :: rest) st =
        (EPD_ERR_PARAM, .cmd b :: rest.map .data, st)) ∧
    (∀ (st : St), interp env cfg [0xFD] st = (EPD_ERR_PARAM, [], st)) ∧
    (∀ (st : St) (s : Nat) (rest : List Nat), 0xF0 ≤ s → s ≤ 0xF8 →
      interp env cfg (s :: rest) st = interp env cfg rest st) ∧
    (∀ (st : St), interp env cfg [] st = (EPD_OK, [], st)) :=
  ⟨fun st b n rest hb hn => interp_cmd_record env cfg st b n rest hb hn,
   fun st b hb => interp_cmd_missing_count env cfg st b hb,
   fun st b n rest hb hn => interp_cmd_truncated_payload env cfg st b n rest hb hn,
   fun st => interp_delay_truncated env cfg st,
   fun st s rest hlo hhi => interp_unknown_sentinel env cfg st s rest hlo hhi,
   fun st => interp_nil env cfg st⟩

/-- Witness for C4: a stream with one full command record (`0x01` with two
data bytes), an unrecognized sentinel `0xF4`, and then a truncated record
(command `0x07` with no count byte) ends in `EPD_ERR_PARAM` with exactly
the command/data emissions of the complete parts. -/
theorem c4_interpreter_contract_witness :
    interp envIdle (mkCfg 8 1 .mono .activeHigh 0x24 0)
      [0x01, 0x02, 0x05, 0x06, 0xF4, 0x07] ⟨0, 0⟩ =
      (EPD_ERR_PARAM, [.cmd 0x01, .data 0x05, .data 0x06], ⟨0, 0⟩) := by
  have h := c4_interpreter_contract envIdle (mkCfg 8 1 .mono .activeHigh 0x24 0)
  rw [h.1 ⟨0, 0⟩ 0x01 0x02 [0x05, 0x06, 0xF4, 0x07] (by decide) (by decide)]
  rw [show List.drop 0x02 [0x05, 0x06, 0xF4, 0x07] = [0xF4, 0x07] from rfl]
  rw [h.2.2.2.2.1 ⟨0, 0⟩ 0xF4 [0x07] (by decide) (by decide)]
  rw [h.2.1 ⟨0, 0⟩ 0x07 (by decide)]
  rfl

/-- C2 (code bug): the generic init interpreter's WAIT_BUSY sentinel does
NOT consult the device's cancel flag.  `epd_generic_init` calls
`epd_read_busy(cfg->busy_polarity, EPD_BUSY_TIMEOUT_MS)` with no
cancel-flag argument (`driver_registry.c:122` against the stale
two-parameter prototype `device.h:11`, while `device.c:50` defines the
three-parameter version), and `device_epd_init` never passes
`&dev->cancel` down.  Concretely: on the sequence `[0xFF]` (a single
WAIT_BUSY), with the device cancel flag set at every read and the BUSY
pin instantly idle, interpretation completes the wait and returns
`EPD_OK` — the claim expects the timeout error. -/
theorem c2_wait_busy_ignores_cancel_flag :
    interp envIdleCancelSet (mkCfg 8 1 .mono .activeHigh 0x24 0) [0xFF] ⟨0, 0⟩ =
      (EPD_OK, [.pinRead 0], ⟨0, 1⟩) := by
  have hr : epd_read_busy envIdleCancelSet .activeHigh false EPD_BUSY_TIMEOUT_MS
      ⟨0, 0⟩ = (EPD_OK, [.pinRead 0], ⟨0, 1⟩) := rfl
  rw [interp.eq_def]
  simp [mkCfg, hr, interp_nil]

/-- C8: `epd_generic_display` returns `EPD_ERR_PARAM` exactly when the
buffer is NULL or its length is 0; otherwise it emits
`send_command(display_cmd)`, one bulk data write of the buffer, and — when
`display_cmd_2` is nonzero — `send_command(display_cmd_2)` with no
payload; the trace contains nothing else (in particular no refresh
command). -/
theorem c8_generic_display_contract (cfg : ModelConfig)
    (buf : Option (List Nat)) :
    ((epd_generic_display cfg buf).1 = EPD_ERR_PARAM ↔
      buf = none ∨ buf = some []) ∧
    (∀ l : List Nat, buf = some l → l ≠ [] →
      epd_generic_display cfg buf =
        (EPD_OK, [.cmd cfg.display_cmd, .bulk l] ++
          (if cfg.display_cmd_2 ≠ 0 then [.cmd cfg.display_cmd_2] else []))) := by
  constructor
  · match buf with
    | none => simp [epd_generic_display]
    | some [] => simp [epd_generic_display]
    | some (a :: t) =>
        have h : (epd_generic_display cfg (some (a :: t))).1 = EPD_OK := by
          simp [epd_generic_display]
        rw [h]
        constructor
        · intro heq
          exact absurd heq (by norm_num [EPD_OK, EPD_ERR_PARAM])
        · rintro (h' | h') <;> simp at h'
  · rintro l rfl hl
    have hlen : l.length ≠ 0 := by
      intro h0
      exact hl (List.length_eq_zero.mp h0)
    simp [epd_generic_display, hlen]

/-- Witness for C8: a one-byte buffer on a config with a secondary display
command emits exactly command, bulk data, second command. -/
theorem c8_generic_display_contract_witness :
    epd_generic_display (mkCfg 8 1 .mono .activeHigh 0x24 0x26) (some [0xAA]) =
      (EPD_OK, [.cmd 0x24, .bulk [0xAA], .cmd 0x26]) := by
  have h := (c8_generic_display_contract (mkCfg 8 1 .mono .activeHigh 0x24 0x26)
    (some [0xAA])).2 [0xAA] rfl (by decide)
  rw [h]
  rfl

/-- C5 counterexample: `epd_7in5_v2_display` performs no cancellation check
at the buffer boundary — its C signature receives no cancel flag and it
never reads one, so its run is identical whether or not the device's
cancel flag is set.  At a concrete input (successful allocation), it
transmits the second, inverted buffer and returns `EPD_OK`, where the
claim demands no second transmission and the timeout error. -/
theorem c5_7in5_v2_display_no_boundary_check_cex :
    (epd_7in5_v2_display true (mkCfg 800 480 .mono .activeHigh 0x10 0x13)
      (some [0xAB])).1 = EPD_OK ∧
    HalOp.bulk [0x54] ∈ (epd_7in5_v2_display true
      (mkCfg 800 480 .mono .activeHigh 0x10 0x13) (some [0xAB])).2 ∧
    HalOp.cmd 0x13 ∈ (epd_7in5_v2_display true
      (mkCfg 800 480 .mono .activeHigh 0x10 0x13) (some [0xAB])).2 := by
  decide

/-- C5 (amended): the boundary cancellation check lives in the dual-buffer
worker `display_dual_without_gvl`.  For any driver without a pre-hook, if
the cancel flag reads true at the check between the two channel writes,
the worker stops after the black-channel transmission — the second
channel is never transmitted — and reports `EPD_ERR_TIMEOUT`. -/
theorem c5_dual_worker_boundary_cancel (env : Env) (cfg : ModelConfig)
    (drv : Option Driver) (black red : List Nat) (st : St)
    (hpre : ∀ d, drv = some d → d.pre_display = none)
    (hcan : env.cancel st.c = true) :
    display_dual_worker env cfg drv black red st =
      (EPD_ERR_TIMEOUT, [.cmd cfg.display_cmd, .bulk black],
        ⟨st.c + 1, st.p⟩) := by
  cases drv with
  | none => simp [display_dual_worker, hcan]
  | some d =>
      have hd := hpre d rfl
      simp [display_dual_worker, hd, hcan]

/-- Witness for C5's amended theorem: the 7in5_v2 driver slot (no
pre-hook) under a set cancel flag transmits only the black channel and
reports the timeout. -/
theorem c5_dual_worker_boundary_cancel_witness :
    display_dual_worker envCancelSet (mkCfg 800 480 .mono .activeHigh 0x10 0x13)
      (some (drv_7in5_v2 true)) [0xAB] [0xCD] ⟨0, 0⟩ =
      (EPD_ERR_TIMEOUT, [.cmd 0x10, .bulk [0xAB]], ⟨1, 0⟩) := by
  have h := c5_dual_worker_boundary_cancel envCancelSet
    (mkCfg 800 480 .mono .activeHigh 0x10 0x13) (some (drv_7in5_v2 true))
    [0xAB] [0xCD] ⟨0, 0⟩ (fun d hd => by cases hd; rfl) rfl
  exact h

lemma acep_post_display_cancel_at_entry (env : Env) (cfg : ModelConfig)
    (st : St) (hcan : env.cancel st.c = true) :
    acep_post_display env cfg st =
      (EPD_ERR_TIMEOUT, [HalOp.cmd 0x04], ⟨st.c + 1, st.p⟩) := by
  have hr : epd_read_busy env cfg.busy_polarity true EPD_BUSY_TIMEOUT_MS st =
      (EPD_ERR_TIMEOUT, [], ⟨st.c + 1, st.p⟩) := by
    rw [show EPD_BUSY_TIMEOUT_MS = 4999 + 1 from rfl]
    exact epd_read_busy_cancel_first env cfg.busy_polarity 4999 st hcan
  simp [acep_post_display, hr, EPD_ERR_TIMEOUT, EPD_OK]

/-- C6: for the ACeP driver slot (`epd_5in65f`, post-hook
`acep_post_display`) on a display job whose data commands are not `0x12`:
if the cancel flag is set by the time the power-on busy phase performs its
first check, the worker result is the timeout error, its trace contains
`send_command(0x04)` and never `send_command(0x12)`, and the public
display call raises `BusyTimeoutError`. -/
theorem c6_acep_cancellation (env : Env) (cfg : ModelConfig) (l : List Nat)
    (hl : l ≠ []) (h12 : cfg.display_cmd ≠ 0x12)
    (h12b : cfg.display_cmd_2 ≠ 0x12) (hcan : env.cancel 0 = true) :
    (display_worker env cfg (some drv_5in65f) (some l) ⟨0, 0⟩).1 =
      EPD_ERR_TIMEOUT ∧
    HalOp.cmd 0x04 ∈ (display_worker env cfg (some drv_5in65f) (some l) ⟨0, 0⟩).2.1 ∧
    HalOp.cmd 0x12 ∉ (display_worker env cfg (some drv_5in65f) (some l) ⟨0, 0⟩).2.1 ∧
    (device_epd_display env ⟨cfg, some drv_5in65f, .opened⟩ (some l)).1 =
      .raised .busyTimeout := by
  have hlen : l.length ≠ 0 := by
    intro h0
    exact hl (List.length_eq_zero.mp h0)
  have hacep := acep_post_display_cancel_at_entry env cfg (⟨0, 0⟩ : St) hcan
  have hw : display_worker env cfg (some drv_5in65f) (some l) ⟨0, 0⟩ =
      (EPD_ERR_TIMEOUT,
        ([.cmd cfg.display_cmd, .bulk l] ++
          (if cfg.display_cmd_2 ≠ 0 then [.cmd cfg.display_cmd_2] else [])) ++
          [HalOp.cmd 0x04],
        ⟨1, 0⟩) := by
    simp [display_worker, drv_5in65f, epd_generic_display, hlen, hacep]
  refine ⟨by rw [hw], ?_, ?_, ?_⟩
  · rw [hw]
    simp
  · rw [hw]
    by_cases h2 : cfg.display_cmd_2 ≠ 0 <;>
      simp [h2, h12, h12b, Ne.symm h12, Ne.symm h12b]
  · have hr : (display_worker env cfg (some drv_5in65f) (some l) ⟨0, 0⟩).1 =
        EPD_ERR_TIMEOUT := by rw [hw]
    simp [device_epd_display, hr]

/-- Witness for C6: concrete ACeP-like config, one-byte buffer, cancel
flag set from the start. -/
theorem c6_acep_cancellation_witness :
    (display_worker envCancelSet (mkCfg 600 448 .color7 .activeHigh 0x10 0)
      (some drv_5in65f) (some [0x11]) ⟨0, 0⟩).1 = EPD_ERR_TIMEOUT ∧
    (device_epd_display envCancelSet
      ⟨mkCfg 600 448 .color7 .activeHigh 0x10 0, some drv_5in65f, .opened⟩
      (some [0x11])).1 = .raised .busyTimeout := by
  have h := c6_acep_cancellation envCancelSet
    (mkCfg 600 448 .color7 .activeHigh 0x10 0) [0x11]
    (by decide) (by decide) (by decide) rfl
  exact ⟨h.1, h.2.2.2⟩

/-- C9 counterexample: on a *clear* job whose worker returns
`EPD_ERR_ALLOC` (the 7in5_v2 driver slot with a failing inversion-buffer
allocation), `device_epd_clear` raises the generic
`DeviceError ("EPD clear failed (rc=-4)")`, not the dedicated
allocation-message `DeviceError` the claim promises for every
display/clear job: `device_epd_clear` (`device.c:606-611`) has no
`EPD_ERR_ALLOC` arm. -/
theorem c9_clear_alloc_generic_error_cex :
    (device_epd_clear envIdle
      ⟨mkCfg 8 1 .mono .activeHigh 0x10 0x13, some (drv_7in5_v2 false),
        .opened⟩).1 = .raised (.deviceFailed EPD_ERR_ALLOC) ∧
    (device_epd_clear envIdle
      ⟨mkCfg 8 1 .mono .activeHigh 0x10 0x13, some (drv_7in5_v2 false),
        .opened⟩).1 ≠ .raised .deviceAllocMsg := by
  decide

/-- C9 (amended): on an Open device, `device_epd_display` translates the
off-lock worker's numeric result as the claim states (Ok → nil return,
TimeoutErr → BusyTimeoutError, AllocErr → DeviceError with the allocation
message, any other nonzero → generic DeviceError), while
`device_epd_clear` translates Ok → nil, TimeoutErr → BusyTimeoutError and
every other nonzero result — including AllocErr — to the generic
DeviceError; in every case the device (in particular its Open state) is
left unchanged. -/
theorem c9_result_translation (env : Env) (dev : Device)
    (buf : Option (List Nat)) (hopen : dev.state = .opened) :
    ((device_epd_display env dev buf).2 = dev) ∧
    ((device_epd_clear env dev).2 = dev) ∧
    ((display_worker env dev.cfg dev.drv buf ⟨0, 0⟩).1 = EPD_OK →
      (device_epd_display env dev buf).1 = .ret) ∧
    ((display_worker env dev.cfg dev.drv buf ⟨0, 0⟩).1 = EPD_ERR_TIMEOUT →
      (device_epd_display env dev buf).1 = .raised .busyTimeout) ∧
    ((display_worker env dev.cfg dev.drv buf ⟨0, 0⟩).1 = EPD_ERR_ALLOC →
      (device_epd_display env dev buf).1 = .raised .deviceAllocMsg) ∧
    (∀ rc : Int, (display_worker env dev.cfg dev.drv buf ⟨0, 0⟩).1 = rc →
      rc ≠ EPD_OK → rc ≠ EPD_ERR_TIMEOUT → rc ≠ EPD_ERR_ALLOC →
      (device_epd_display env dev buf).1 = .raised (.deviceFailed rc)) ∧
    ((display_worker env dev.cfg dev.drv
        (some (List.replicate
          (clear_width_byte dev.cfg.width dev.cfg.pixel_format * dev.cfg.height)
          (clear_fill_byte dev.cfg.pixel_format))) ⟨0, 0⟩).1 = EPD_OK →
      (device_epd_clear env dev).1 = .ret) ∧
    ((display_worker env dev.cfg dev.drv
        (some (List.replicate
          (clear_width_byte dev.cfg.width dev.cfg.pixel_format * dev.cfg.height)
          (clear_fill_byte dev.cfg.pixel_format))) ⟨0, 0⟩).1 = EPD_ERR_TIMEOUT →
      (device_epd_clear env dev).1 = .raised .busyTimeout) ∧
    (∀ rc : Int, (display_worker env dev.cfg dev.drv
        (some (List.replicate
          (clear_width_byte dev.cfg.width dev.cfg.pixel_format * dev.cfg.height)
          (clear_fill_byte dev.cfg.pixel_format))) ⟨0, 0⟩).1 = rc →
      rc ≠ EPD_OK → rc ≠ EPD_ERR_TIMEOUT →
      (device_epd_clear env dev).1 = .raised (.deviceFailed rc)) := by
  have hne1 : EPD_OK ≠ EPD_ERR_TIMEOUT := by norm_num [EPD_OK, EPD_ERR_TIMEOUT]
  have hne2 : EPD_OK ≠ EPD_ERR_ALLOC := by norm_num [EPD_OK, EPD_ERR_ALLOC]
  have hne3 : EPD_ERR_TIMEOUT ≠ EPD_ERR_ALLOC := by
    norm_num [EPD_ERR_TIMEOUT, EPD_ERR_ALLOC]
  refine ⟨?_, ?_, ?_, ?_, ?_, ?_, ?_, ?_, ?_⟩
  · simp [device_epd_display, hopen]
  · simp [device_epd_clear, hopen]
  · intro h
    simp [device_epd_display, hopen, h, hne1, hne2]
  · intro h
    simp [device_epd_display, hopen, h]
  · intro h
    simp [device_epd_display, hopen, h, hne3, EPD_ERR_ALLOC, EPD_ERR_TIMEOUT]
  · intro rc h hrc1 hrc2 hrc3
    simp [device_epd_display, hopen, h, hrc1, hrc2, hrc3]
  · intro h
    simp [device_epd_clear, hopen, h, hne1]
  · intro h
    simp [device_epd_clear, hopen, h]
  · intro rc h hrc1 hrc2
    simp [device_epd_clear, hopen, h, hrc1, hrc2]

/-- Witness for C9: a Tier-1 device (no driver) with a one-byte buffer
completes a display job with a nil return and is left Open. -/
theorem c9_result_translation_witness :
    (device_epd_display envIdle
      ⟨mkCfg 8 1 .mono .activeHigh 0x24 0, none, .opened⟩ (some [0xAA])).1 =
      .ret ∧
    (device_epd_display envIdle
      ⟨mkCfg 8 1 .mono .activeHigh 0x24 0, none, .opened⟩ (some [0xAA])).2.state =
      .opened := by
  have h := c9_result_translation envIdle
    ⟨mkCfg 8 1 .mono .activeHigh 0x24 0, none, .opened⟩ (some [0xAA]) rfl
  exact ⟨h.2.2.1 rfl, by rw [h.1]⟩

/-- C1 (code bug): `tier2_model_names` does not contain
`"epd_5in83_v2"`, so the Category-6 wiring
(`tier2_overrides.c:863-867`) finds no slot and the
`custom_display_region`/`post_display_region` hooks for that model are
never installed — a regional display on `epd_5in83_v2` falls back to the
generic path and never produces the claimed trace.  The dead override
function itself, on the claim's input (648×480 config, full-size buffer,
rectangle x=16 y=8 w=32 h=4), emits exactly the claimed sequence: `0x91`;
`0x90` with the nine window bytes `00 10 00 2F 00 08 00 0B 01`; `0x13`
followed by four 4-byte row slices from offsets `(8+r)·81 + 2`; `0x12`
and a 100 ms delay — and the (equally unregistered) post-hook would
busy-wait and emit `0x92`. -/
theorem c1_5in83_v2_region_trace_and_dead_registration (cfg : ModelConfig)
    (l : List Nat) (hw : cfg.width = 648) (hh : cfg.height = 480)
    (hpol : cfg.busy_polarity = .activeHigh) (hl : l.length = 38880) :
    find_driver_slot tier2_model_names "epd_5in83_v2" = none ∧
    epd_5in83_v2_display_region cfg (some l) 16 8 32 4 =
      (EPD_OK,
        [.cmd 0x91, .cmd 0x90, .data 0x00, .data 0x10, .data 0x00,
         .data 0x2F, .data 0x00, .data 0x08, .data 0x00, .data 0x0B,
         .data 0x01, .cmd 0x13,
         .bulk ((l.drop 650).take 4), .bulk ((l.drop 731).take 4),
         .bulk ((l.drop 812).take 4), .bulk ((l.drop 893).take 4),
         .cmd 0x12, .delay 100]) ∧
    uc8179_post_display_region envIdle cfg ⟨0, 0⟩ =
      (EPD_OK, [.pinRead 0, .cmd 0x92], ⟨1, 1⟩) := by
  refine ⟨by decide, ?_, ?_⟩
  · have hrange : List.range 4 = [0, 1, 2, 3] := rfl
    simp only [epd_5in83_v2_display_region, hw, hh, hl, hrange, List.map]
    norm_num
    decide
  · have hr : epd_read_busy envIdle cfg.busy_polarity true EPD_BUSY_TIMEOUT_MS
        ⟨0, 0⟩ = (EPD_OK, [.pinRead 0], ⟨1, 1⟩) := by
      rw [hpol]
      rfl
    simp [uc8179_post_display_region, hr]

/-- Witness for C1: the dead override function evaluated on an all-zero
full-size buffer. -/
theorem c1_5in83_v2_region_witness :
    epd_5in83_v2_display_region (mkCfg 648 480 .mono .activeHigh 0x10 0x13)
      (some (List.replicate 38880 0)) 16 8 32 4 =
      (EPD_OK,
        [.cmd 0x91, .cmd 0x90, .data 0x00, .data 0x10, .data 0x00,
         .data 0x2F, .data 0x00, .data 0x08, .data 0x00, .data 0x0B,
         .data 0x01, .cmd 0x13,
         .bulk (((List.replicate 38880 (0 : Nat)).drop 650).take 4),
         .bulk (((List.replicate 38880 (0 : Nat)).drop 731).take 4),
         .bulk (((List.replicate 38880 (0 : Nat)).drop 812).take 4),
         .bulk (((List.replicate 38880 (0 : Nat)).drop 893).take 4),
         .cmd 0x12, .delay 100]) :=
  (c1_5in83_v2_region_trace_and_dead_registration
    (mkCfg 648 480 .mono .activeHigh 0x10 0x13) (List.replicate 38880 0)
    rfl rfl rfl (by rw [List.length_replicate])).2.1

lemma getD_set_self (l : List Nat) (i v : Nat) (h : i < l.length) :
    (l.set i v).getD i 0 = v := by
  simp [List.getD_eq_getElem?_getD, List.getElem?_set_self h]

lemma getD_set_ne (l : List Nat) (i j v : Nat) (h : i ≠ j) :
    (l.set i v).getD j 0 = l.getD j 0 := by
  simp [List.getD_eq_getElem?_getD, List.getElem?_set_ne h]

lemma getD_replicate_lt (n fill i : Nat) (h : i < n) :
    (List.replicate n fill).getD i 0 = fill := by
  have h' : i < (List.replicate n fill).length := by simpa using h
  rw [List.getD_eq_getElem?_getD, List.getElem?_eq_getElem h']
  simp

lemma getD_lt_of_forall (l : List Nat) (h : ∀ b ∈ l, b < 256) (i : Nat) :
    l.getD i 0 < 256 := by
  by_cases hi : i < l.length
  · rw [List.getD_eq_getElem?_getD, List.getElem?_eq_getElem hi]
    exact h _ (List.getElem_mem hi)
  · rw [List.getD_eq_getElem?_getD, List.getElem?_eq_none (by omega)]
    norm_num

lemma addr_bound (k w h wb x y : Nat) (hk : 0 < k) (hw : 1 ≤ w)
    (hx : x < w) (hy : y < h) (hwb : wb = (w + k - 1) / k) :
    x / k < wb ∧ x / k + y * wb < wb * h := by
  have h1 : x / k ≤ (w - 1) / k := Nat.div_le_div_right (by omega)
  have h2 : wb = (w - 1) / k + 1 := by
    rw [hwb]
    have he : w + k - 1 = (w - 1) + k := by omega
    rw [he, Nat.add_div_right _ hk]
  have hxk : x / k < wb := by omega
  refine ⟨hxk, ?_⟩
  calc x / k + y * wb < wb + y * wb := by omega
  _ = (y + 1) * wb := by ring
  _ ≤ h * wb := Nat.mul_le_mul_right _ (by omega)
  _ = wb * h := Nat.mul_comm _ _

lemma pixel_addr_inj (k wb x x' y y' : Nat)
    (hxk : x / k < wb) (hxk' : x' / k < wb)
    (haddr : x / k + y * wb = x' / k + y' * wb)
    (hlane : x % k = x' % k) : x = x' ∧ y = y' := by
  have hwb : 0 < wb := lt_of_le_of_lt (Nat.zero_le (x / k)) hxk
  have h1 : (x / k + y * wb) / wb = y := by
    rw [Nat.add_mul_div_right _ _ hwb, Nat.div_eq_of_lt hxk, Nat.zero_add]
  have h2 : (x' / k + y' * wb) / wb = y' := by
    rw [Nat.add_mul_div_right _ _ hwb, Nat.div_eq_of_lt hxk', Nat.zero_add]
  have hy : y = y' := by rw [← h1, ← h2, haddr]
  rw [hy] at haddr
  have hdiv : x / k = x' / k := by omega
  have e1 := Nat.div_add_mod x k
  have e2 := Nat.div_add_mod x' k
  rw [hdiv] at e1
  exact ⟨by omega, hy⟩

set_option maxRecDepth 100000 in
lemma mono_byte_roundtrip : ∀ b < 256, ∀ l < 8, ∀ c < 2,
    ((if c &&& 0xFF = 0 then b &&& (0xFF ^^^ (0x80 >>> l))
      else b ||| (0x80 >>> l)) >>> (7 - l)) &&& 0x01 = c := by decide

set_option maxRecDepth 100000 in
lemma gray_byte_roundtrip : ∀ b < 256, ∀ l < 4, ∀ c < 4,
    (((b &&& (0xFF ^^^ (0xC0 >>> (l * 2)))) |||
      (((c &&& 0xFF) &&& 0x03) <<< 6 >>> (l * 2))) >>> (6 - l * 2)) &&& 0x03 =
      c := by decide

set_option maxRecDepth 100000 in
lemma color_byte_roundtrip : ∀ b < 256, ∀ l < 2, ∀ c < 16,
    (((b &&& (0xFF ^^^ (0xF0 >>> (l * 4)))) |||
      (((c &&& 0xFF) &&& 0x0F) <<< 4 >>> (l * 4))) >>> (4 - l * 4)) &&& 0x0F =
      c := by decide

set_option maxRecDepth 200000 in
lemma mono_byte_frame_and : ∀ b < 256, ∀ l < 8, ∀ m < 8, l ≠ m →
    ((b &&& (0xFF ^^^ (0x80 >>> l))) >>> (7 - m)) &&& 0x01 =
      (b >>> (7 - m)) &&& 0x01 := by decide

set_option maxRecDepth 200000 in
lemma mono_byte_frame_or : ∀ b < 256, ∀ l < 8, ∀ m < 8, l ≠ m →
    ((b ||| (0x80 >>> l)) >>> (7 - m)) &&& 0x01 =
      (b >>> (7 - m)) &&& 0x01 := by decide

set_option maxRecDepth 200000 in
lemma gray_byte_frame : ∀ b < 256, ∀ l < 4, ∀ m < 4, l ≠ m → ∀ c < 4,
    (((b &&& (0xFF ^^^ (0xC0 >>> (l * 2)))) ||| (c <<< 6 >>> (l * 2))) >>>
      (6 - m * 2)) &&& 0x03 = (b >>> (6 - m * 2)) &&& 0x03 := by decide

set_option maxRecDepth 200000 in
lemma color_byte_frame : ∀ b < 256, ∀ l < 2, ∀ m < 2, l ≠ m → ∀ c < 16,
    (((b &&& (0xFF ^^^ (0xF0 >>> (l * 4)))) ||| (c <<< 4 >>> (l * 4))) >>>
      (4 - m * 4)) &&& 0x0F = (b >>> (4 - m * 4)) &&& 0x0F := by decide

set_option maxRecDepth 100000 in
lemma mono_clear_get : ∀ l < 8, ∀ c < 2,
    ((if c &&& 0xFF = 0 then 0x00 else 0xFF) >>> (7 - l)) &&& 0x01 = c := by
  decide

set_option maxRecDepth 100000 in
lemma gray_clear_get : ∀ l < 4, ∀ c < 4,
    (((((c &&& 0xFF) &&& 0x03) <<< 6) ||| (((c &&& 0xFF) &&& 0x03) <<< 4) |||
      (((c &&& 0xFF) &&& 0x03) <<< 2) ||| ((c &&& 0xFF) &&& 0x03)) >>>
      (6 - l * 2)) &&& 0x03 = c := by decide

set_option maxRecDepth 100000 in
lemma color_clear_get : ∀ l < 2, ∀ c < 16,
    (((((c &&& 0xFF) &&& 0x0F) <<< 4) ||| ((c &&& 0xFF) &&& 0x0F)) >>>
      (4 - l * 4)) &&& 0x0F = c := by decide

lemma set_get_mono (fb : Framebuffer) (hwf : FbWF fb)
    (hfmt : fb.pixel_format = .mono) (x y c : Nat)
    (hx : x < fb.width) (hy : y < fb.height) (hc : c ≤ 1) :
    fb_get_pixel (fb_set_pixel fb x y c) x y = some c := by
  obtain ⟨hw1, -, hh1, -, hwb, hbs, hlen, hbytes⟩ := hwf
  have hin : ¬ (fb.width ≤ x ∨ fb.height ≤ y) := by omega
  have hwb8 : fb.width_byte = (fb.width + 8 - 1) / 8 := by
    rw [hwb, hfmt]; rfl
  have hk := addr_bound 8 fb.width fb.height fb.width_byte x y (by norm_num)
    hw1 hx hy hwb8
  have haddr : x / 8 + y * fb.width_byte < fb.buffer.length := by
    rw [hlen, hbs]; exact hk.2
  have hb := getD_lt_of_forall fb.buffer hbytes (x / 8 + y * fb.width_byte)
  have hlane : x % 8 < 8 := Nat.mod_lt _ (by norm_num)
  have hset : fb_set_pixel fb x y c = { fb with buffer :=
      (fb.buffer.set (x / 8 + y * fb.width_byte)
        (if c &&& 0xFF = 0 then
          fb.buffer.getD (x / 8 + y * fb.width_byte) 0 &&&
            (0xFF ^^^ (0x80 >>> (x % 8)))
        else fb.buffer.getD (x / 8 + y * fb.width_byte) 0 |||
          (0x80 >>> (x % 8)))) } := by
    simp only [fb_set_pixel, hfmt]
    rw [if_neg hin]
  rw [hset]
  simp only [fb_get_pixel, hfmt]
  rw [if_neg hin, getD_set_self _ _ _ haddr]
  exact congrArg some (mono_byte_roundtrip _ hb _ hlane c (by omega))

lemma fb_set_pixel_mono (fb : Framebuffer) (hfmt : fb.pixel_format = .mono)
    (x y c : Nat) (hx : x < fb.width) (hy : y < fb.height) :
    fb_set_pixel fb x y c = { fb with buffer :=
      (fb.buffer.set (x / 8 + y * fb.width_byte)
        (if c &&& 0xFF = 0 then
          fb.buffer.getD (x / 8 + y * fb.width_byte) 0 &&&
            (0xFF ^^^ (0x80 >>> (x % 8)))
        else fb.buffer.getD (x / 8 + y * fb.width_byte) 0 |||
          (0x80 >>> (x % 8)))) } := by
  have hin : ¬ (fb.width ≤ x ∨ fb.height ≤ y) := by omega
  simp only [fb_set_pixel, hfmt]
  rw [if_neg hin]

lemma fb_set_pixel_gray (fb : Framebuffer) (hfmt : fb.pixel_format = .gray4)
    (x y c : Nat) (hx : x < fb.width) (hy : y < fb.height) :
    fb_set_pixel fb x y c = { fb with buffer :=
      (fb.buffer.set (x / 4 + y * fb.width_byte)
        ((fb.buffer.getD (x / 4 + y * fb.width_byte) 0 &&&
          (0xFF ^^^ (0xC0 >>> (x % 4 * 2)))) |||
          (((c &&& 0xFF) &&& 0x03) <<< 6 >>> (x % 4 * 2)))) } := by
  have hin : ¬ (fb.width ≤ x ∨ fb.height ≤ y) := by omega
  simp only [fb_set_pixel, hfmt]
  rw [if_neg hin]

lemma fb_set_pixel_color (fb : Framebuffer)
    (hfmt : fb.pixel_format = .color4 ∨ fb.pixel_format = .color7)
    (x y c : Nat) (hx : x < fb.width) (hy : y < fb.height) :
    fb_set_pixel fb x y c = { fb with buffer :=
      (fb.buffer.set (x / 2 + y * fb.width_byte)
        ((fb.buffer.getD (x / 2 + y * fb.width_byte) 0 &&&
          (0xFF ^^^ (0xF0 >>> (x % 2 * 4)))) |||
          (((c &&& 0xFF) &&& 0x0F) <<< 4 >>> (x % 2 * 4)))) } := by
  have hin : ¬ (fb.width ≤ x ∨ fb.height ≤ y) := by omega
  rcases hfmt with h | h <;>
    (simp only [fb_set_pixel, h]; rw [if_neg hin])

lemma fb_get_pixel_mono (fb : Framebuffer) (hfmt : fb.pixel_format = .mono)
    (x y : Nat) (hx : x < fb.width) (hy : y < fb.height) :
    fb_get_pixel fb x y =
      some ((fb.buffer.getD (x / 8 + y * fb.width_byte) 0 >>> (7 - x % 8)) &&&
        0x01) := by
  have hin : ¬ (fb.width ≤ x ∨ fb.height ≤ y) := by omega
  simp only [fb_get_pixel, hfmt]
  rw [if_neg hin]

lemma fb_get_pixel_gray (fb : Framebuffer) (hfmt : fb.pixel_format = .gray4)
    (x y : Nat) (hx : x < fb.width) (hy : y < fb.height) :
    fb_get_pixel fb x y =
      some ((fb.buffer.getD (x / 4 + y * fb.width_byte) 0 >>>
        (6 - x % 4 * 2)) &&& 0x03) := by
  have hin : ¬ (fb.width ≤ x ∨ fb.height ≤ y) := by omega
  simp only [fb_get_pixel, hfmt]
  rw [if_neg hin]

lemma fb_get_pixel_color (fb : Framebuffer)
    (hfmt : fb.pixel_format = .color4 ∨ fb.pixel_format = .color7)
    (x y : Nat) (hx : x < fb.width) (hy : y < fb.height) :
    fb_get_pixel fb x y =
      some ((fb.buffer.getD (x / 2 + y * fb.width_byte) 0 >>>
        (4 - x % 2 * 4)) &&& 0x0F) := by
  have hin : ¬ (fb.width ≤ x ∨ fb.height ≤ y) := by omega
  rcases hfmt with h | h <;>
    (simp only [fb_get_pixel, h]; rw [if_neg hin])

lemma set_get_gray (fb : Framebuffer) (hwf : FbWF fb)
    (hfmt : fb.pixel_format = .gray4) (x y c : Nat)
    (hx : x < fb.width) (hy : y < fb.height) (hc : c ≤ 3) :
    fb_get_pixel (fb_set_pixel fb x y c) x y = some c := by
  obtain ⟨hw1, -, hh1, -, hwb, hbs, hlen, hbytes⟩ := hwf
  have hwb4 : fb.width_byte = (fb.width + 4 - 1) / 4 := by
    rw [hwb, hfmt]; rfl
  have hk := addr_bound 4 fb.width fb.height fb.width_byte x y (by norm_num)
    hw1 hx hy hwb4
  have haddr : x / 4 + y * fb.width_byte < fb.buffer.length := by
    rw [hlen, hbs]; exact hk.2
  have hb := getD_lt_of_forall fb.buffer hbytes (x / 4 + y * fb.width_byte)
  have hlane : x % 4 < 4 := Nat.mod_lt _ (by norm_num)
  have hin : ¬ (fb.width ≤ x ∨ fb.height ≤ y) := by omega
  rw [fb_set_pixel_gray fb hfmt x y c hx hy]
  simp only [fb_get_pixel, hfmt]
  rw [if_neg hin, getD_set_self _ _ _ haddr]
  exact congrArg some (gray_byte_roundtrip _ hb _ hlane c (by omega))

lemma set_get_color (fb : Framebuffer) (hwf : FbWF fb)
    (hfmt : fb.pixel_format = .color4 ∨ fb.pixel_format = .color7)
    (x y c : Nat) (hx : x < fb.width) (hy : y < fb.height) (hc : c ≤ 15) :
    fb_get_pixel (fb_set_pixel fb x y c) x y = some c := by
  obtain ⟨hw1, -, hh1, -, hwb, hbs, hlen, hbytes⟩ := hwf
  have hwb2 : fb.width_byte = (fb.width + 2 - 1) / 2 := by
    rcases hfmt with h | h <;> (rw [hwb, h]; rfl)
  have hk := addr_bound 2 fb.width fb.height fb.width_byte x y (by norm_num)
    hw1 hx hy hwb2
  have haddr : x / 2 + y * fb.width_byte < fb.buffer.length := by
    rw [hlen, hbs]; exact hk.2
  have hb := getD_lt_of_forall fb.buffer hbytes (x / 2 + y * fb.width_byte)
  have hlane : x % 2 < 2 := Nat.mod_lt _ (by norm_num)
  have hin : ¬ (fb.width ≤ x ∨ fb.height ≤ y) := by omega
  rw [fb_set_pixel_color fb hfmt x y c hx hy]
  rcases hfmt with h | h <;>
    (simp only [fb_get_pixel, h]
     rw [if_neg hin, getD_set_self _ _ _ haddr]
     exact congrArg some (color_byte_roundtrip _ hb _ hlane c (by omega)))

lemma clear_get_mono (fb : Framebuffer) (hwf : FbWF fb)
    (hfmt : fb.pixel_format = .mono) (x y c : Nat)
    (hx : x < fb.width) (hy : y < fb.height) (hc : c ≤ 1) :
    fb_get_pixel (fb_clear fb c) x y = some c := by
  obtain ⟨hw1, -, hh1, -, hwb, hbs, hlen, hbytes⟩ := hwf
  have hwb8 : fb.width_byte = (fb.width + 8 - 1) / 8 := by
    rw [hwb, hfmt]; rfl
  have hk := addr_bound 8 fb.width fb.height fb.width_byte x y (by norm_num)
    hw1 hx hy hwb8
  have hlane : x % 8 < 8 := Nat.mod_lt _ (by norm_num)
  have hclear : fb_clear fb c = { fb with buffer :=
      (List.replicate fb.buffer_size
        (if c &&& 0xFF = 0 then 0x00 else 0xFF)) } := by
    simp only [fb_clear, hfmt]
  have hin : ¬ (fb.width ≤ x ∨ fb.height ≤ y) := by omega
  rw [hclear]
  simp only [fb_get_pixel, hfmt]
  rw [if_neg hin, getD_replicate_lt _ _ _ (by rw [hbs]; exact hk.2)]
  exact congrArg some (mono_clear_get _ hlane c (by omega))

lemma clear_get_gray (fb : Framebuffer) (hwf : FbWF fb)
    (hfmt : fb.pixel_format = .gray4) (x y c : Nat)
    (hx : x < fb.width) (hy : y < fb.height) (hc : c ≤ 3) :
    fb_get_pixel (fb_clear fb c) x y = some c := by
  obtain ⟨hw1, -, hh1, -, hwb, hbs, hlen, hbytes⟩ := hwf
  have hwb4 : fb.width_byte = (fb.width + 4 - 1) / 4 := by
    rw [hwb, hfmt]; rfl
  have hk := addr_bound 4 fb.width fb.height fb.width_byte x y (by norm_num)
    hw1 hx hy hwb4
  have hlane : x % 4 < 4 := Nat.mod_lt _ (by norm_num)
  have hclear : fb_clear fb c = { fb with buffer :=
      (List.replicate fb.buffer_size
        ((((c &&& 0xFF) &&& 0x03) <<< 6) ||| (((c &&& 0xFF) &&& 0x03) <<< 4) |||
          (((c &&& 0xFF) &&& 0x03) <<< 2) ||| ((c &&& 0xFF) &&& 0x03))) } := by
    simp only [fb_clear, hfmt]
  have hin : ¬ (fb.width ≤ x ∨ fb.height ≤ y) := by omega
  rw [hclear]
  simp only [fb_get_pixel, hfmt]
  rw [if_neg hin, getD_replicate_lt _ _ _ (by rw [hbs]; exact hk.2)]
  exact congrArg some (gray_clear_get _ hlane c (by omega))

lemma clear_get_color (fb : Framebuffer) (hwf : FbWF fb)
    (hfmt : fb.pixel_format = .color4 ∨ fb.pixel_format = .color7)
    (x y c : Nat) (hx : x < fb.width) (hy : y < fb.height) (hc : c ≤ 15) :
    fb_get_pixel (fb_clear fb c) x y = some c := by
  obtain ⟨hw1, -, hh1, -, hwb, hbs, hlen, hbytes⟩ := hwf
  have hwb2 : fb.width_byte = (fb.width + 2 - 1) / 2 := by
    rcases hfmt with h | h <;> (rw [hwb, h]; rfl)
  have hk := addr_bound 2 fb.width fb.height fb.width_byte x y (by norm_num)
    hw1 hx hy hwb2
  have hlane : x % 2 < 2 := Nat.mod_lt _ (by norm_num)
  have hclear : fb_clear fb c = { fb with buffer :=
      (List.replicate fb.buffer_size
        ((((c &&& 0xFF) &&& 0x0F) <<< 4) ||| ((c &&& 0xFF) &&& 0x0F))) } := by
    rcases hfmt with h | h <;> simp only [fb_clear, h]
  have hin : ¬ (fb.width ≤ x ∨ fb.height ≤ y) := by omega
  rw [hclear]
  rcases hfmt with h | h <;>
    (simp only [fb_get_pixel, h]
     rw [if_neg hin, getD_replicate_lt _ _ _ (by rw [hbs]; exact hk.2)]
     exact congrArg some (color_clear_get _ hlane c (by omega)))

lemma set_pixel_oob (fb : Framebuffer) (x y c : Nat)
    (h : fb.width ≤ x ∨ fb.height ≤ y) : fb_set_pixel fb x y c = fb := by
  simp only [fb_set_pixel]
  rw [if_pos h]

/-- C7: for every well-formed framebuffer and every in-bounds pixel and
in-range color, `set_pixel` then `get_pixel` returns the color written;
`set_pixel` with an out-of-bounds coordinate is the identity; and after
`clear(c)` every in-bounds `get_pixel` returns `c`. -/
theorem c7_fb_roundtrip (fb : Framebuffer) (hwf : FbWF fb) (x y c : Nat)
    (hx : x < fb.width) (hy : y < fb.height)
    (hc : c ≤ max_color_for_format fb.pixel_format) :
    fb_get_pixel (fb_set_pixel fb x y c) x y = some c ∧
    (∀ x' y' c' : Nat, fb.width ≤ x' ∨ fb.height ≤ y' →
      fb_set_pixel fb x' y' c' = fb) ∧
    fb_get_pixel (fb_clear fb c) x y = some c := by
  refine ⟨?_, fun x' y' c' h => set_pixel_oob fb x' y' c' h, ?_⟩
  · cases hfmt : fb.pixel_format with
    | mono =>
        exact set_get_mono fb hwf hfmt x y c hx hy (by rw [hfmt] at hc; exact hc)
    | gray4 =>
        exact set_get_gray fb hwf hfmt x y c hx hy (by rw [hfmt] at hc; exact hc)
    | color4 =>
        exact set_get_color fb hwf (Or.inl hfmt) x y c hx hy
          (by rw [hfmt] at hc; exact hc)
    | color7 =>
        exact set_get_color fb hwf (Or.inr hfmt) x y c hx hy
          (by rw [hfmt] at hc; exact hc)
  · cases hfmt : fb.pixel_format with
    | mono =>
        exact clear_get_mono fb hwf hfmt x y c hx hy (by rw [hfmt] at hc; exact hc)
    | gray4 =>
        exact clear_get_gray fb hwf hfmt x y c hx hy (by rw [hfmt] at hc; exact hc)
    | color4 =>
        exact clear_get_color fb hwf (Or.inl hfmt) x y c hx hy
          (by rw [hfmt] at hc; exact hc)
    | color7 =>
        exact clear_get_color fb hwf (Or.inr hfmt) x y c hx hy
          (by rw [hfmt] at hc; exact hc)

/-- Witness for C7: a 4×2 Gray4 framebuffer round-trips color 2 at (1,1),
ignores an out-of-bounds write, and reads back 3 everywhere after
`clear(3)`. -/
theorem c7_fb_roundtrip_witness :
    fb_get_pixel (fb_set_pixel ⟨4, 2, .gray4, 1, 2, [0, 0]⟩ 1 1 2) 1 1 =
      some 2 ∧
    fb_set_pixel ⟨4, 2, .gray4, 1, 2, [0, 0]⟩ 4 0 1 =
      ⟨4, 2, .gray4, 1, 2, [0, 0]⟩ ∧
    fb_get_pixel (fb_clear ⟨4, 2, .gray4, 1, 2, [0, 0]⟩ 3) 1 1 = some 3 := by
  have h := c7_fb_roundtrip ⟨4, 2, .gray4, 1, 2, [0, 0]⟩
    (by refine ⟨by decide, by decide, by decide, by decide, rfl, rfl, rfl, ?_⟩
        decide) 1 1 2 (by decide) (by decide) (by decide)
  have h3 := c7_fb_roundtrip ⟨4, 2, .gray4, 1, 2, [0, 0]⟩
    (by refine ⟨by decide, by decide, by decide, by decide, rfl, rfl, rfl, ?_⟩
        decide) 1 1 3 (by decide) (by decide) (by decide)
  exact ⟨h.1, h.2.1 4 0 1 (by left; decide), h3.2.2⟩

lemma frame_mono (fb : Framebuffer) (hwf : FbWF fb)
    (hfmt : fb.pixel_format = .mono) (x y c x' y' : Nat)
    (hx : x < fb.width) (hy : y < fb.height)
    (hx' : x' < fb.width) (hy' : y' < fb.height) (hne : (x', y') ≠ (x, y)) :
    fb_get_pixel (fb_set_pixel fb x y c) x' y' = fb_get_pixel fb x' y' := by
  obtain ⟨hw1, -, hh1, -, hwb, hbs, hlen, hbytes⟩ := hwf
  have hwb8 : fb.width_byte = (fb.width + 8 - 1) / 8 := by rw [hwb, hfmt]; rfl
  have hk := addr_bound 8 fb.width fb.height fb.width_byte x y (by norm_num)
    hw1 hx hy hwb8
  have hk' := addr_bound 8 fb.width fb.height fb.width_byte x' y' (by norm_num)
    hw1 hx' hy' hwb8
  have haddr : x / 8 + y * fb.width_byte < fb.buffer.length := by
    rw [hlen, hbs]; exact hk.2
  have hb := getD_lt_of_forall fb.buffer hbytes (x / 8 + y * fb.width_byte)
  have hin' : ¬ (fb.width ≤ x' ∨ fb.height ≤ y') := by omega
  rw [fb_set_pixel_mono fb hfmt x y c hx hy]
  simp only [fb_get_pixel, hfmt]
  rw [if_neg hin', if_neg hin']
  by_cases heq : x' / 8 + y' * fb.width_byte = x / 8 + y * fb.width_byte
  · have hlne : x % 8 ≠ x' % 8 := by
      intro hl
      obtain ⟨hxx, hyy⟩ := pixel_addr_inj 8 fb.width_byte x x' y y'
        hk.1 hk'.1 (by omega) hl
      exact hne (by rw [hxx, hyy])
    have hl8 : x % 8 < 8 := Nat.mod_lt _ (by norm_num)
    have hl8' : x' % 8 < 8 := Nat.mod_lt _ (by norm_num)
    rw [heq, getD_set_self _ _ _ haddr]
    by_cases hc0 : c &&& 0xFF = 0
    · rw [if_pos hc0]
      exact congrArg some (mono_byte_frame_and _ hb _ hl8 _ hl8' hlne)
    · rw [if_neg hc0]
      exact congrArg some (mono_byte_frame_or _ hb _ hl8 _ hl8' hlne)
  · rw [getD_set_ne _ _ _ _ (fun h => heq h.symm)]

lemma frame_gray (fb : Framebuffer) (hwf : FbWF fb)
    (hfmt : fb.pixel_format = .gray4) (x y c x' y' : Nat)
    (hx : x < fb.width) (hy : y < fb.height)
    (hx' : x' < fb.width) (hy' : y' < fb.height) (hne : (x', y') ≠ (x, y)) :
    fb_get_pixel (fb_set_pixel fb x y c) x' y' = fb_get_pixel fb x' y' := by
  obtain ⟨hw1, -, hh1, -, hwb, hbs, hlen, hbytes⟩ := hwf
  have hwb4 : fb.width_byte = (fb.width + 4 - 1) / 4 := by rw [hwb, hfmt]; rfl
  have hk := addr_bound 4 fb.width fb.height fb.width_byte x y (by norm_num)
    hw1 hx hy hwb4
  have hk' := addr_bound 4 fb.width fb.height fb.width_byte x' y' (by norm_num)
    hw1 hx' hy' hwb4
  have haddr : x / 4 + y * fb.width_byte < fb.buffer.length := by
    rw [hlen, hbs]; exact hk.2
  have hb := getD_lt_of_forall fb.buffer hbytes (x / 4 + y * fb.width_byte)
  have hin' : ¬ (fb.width ≤ x' ∨ fb.height ≤ y') := by omega
  rw [fb_set_pixel_gray fb hfmt x y c hx hy]
  simp only [fb_get_pixel, hfmt]
  rw [if_neg hin', if_neg hin']
  by_cases heq : x' / 4 + y' * fb.width_byte = x / 4 + y * fb.width_byte
  · have hlne : x % 4 ≠ x' % 4 := by
      intro hl
      obtain ⟨hxx, hyy⟩ := pixel_addr_inj 4 fb.width_byte x x' y y'
        hk.1 hk'.1 (by omega) hl
      exact hne (by rw [hxx, hyy])
    have hl4 : x % 4 < 4 := Nat.mod_lt _ (by norm_num)
    have hl4' : x' % 4 < 4 := Nat.mod_lt _ (by norm_num)
    rw [heq, getD_set_self _ _ _ haddr]
    exact congrArg some (gray_byte_frame _ hb _ hl4 _ hl4' hlne _
      (Nat.lt_succ_of_le Nat.and_le_right))
  · rw [getD_set_ne _ _ _ _ (fun h => heq h.symm)]

lemma frame_color (fb : Framebuffer) (hwf : FbWF fb)
    (hfmt : fb.pixel_format = .color4 ∨ fb.pixel_format = .color7)
    (x y c x' y' : Nat) (hx : x < fb.width) (hy : y < fb.height)
    (hx' : x' < fb.width) (hy' : y' < fb.height) (hne : (x', y') ≠ (x, y)) :
    fb_get_pixel (fb_set_pixel fb x y c) x' y' = fb_get_pixel fb x' y' := by
  obtain ⟨hw1, -, hh1, -, hwb, hbs, hlen, hbytes⟩ := hwf
  have hwb2 : fb.width_byte = (fb.width + 2 - 1) / 2 := by
    rcases hfmt with h | h <;> (rw [hwb, h]; rfl)
  have hk := addr_bound 2 fb.width fb.height fb.width_byte x y (by norm_num)
    hw1 hx hy hwb2
  have hk' := addr_bound 2 fb.width fb.height fb.width_byte x' y' (by norm_num)
    hw1 hx' hy' hwb2
  have haddr : x / 2 + y * fb.width_byte < fb.buffer.length := by
    rw [hlen, hbs]; exact hk.2
  have hb := getD_lt_of_forall fb.buffer hbytes (x / 2 + y * fb.width_byte)
  have hin' : ¬ (fb.width ≤ x' ∨ fb.height ≤ y') := by omega
  rw [fb_set_pixel_color fb hfmt x y c hx hy]
  rcases hfmt with h | h <;>
    (simp only [fb_get_pixel, h]
     rw [if_neg hin', if_neg hin']
     by_cases heq : x' / 2 + y' * fb.width_byte = x / 2 + y * fb.width_byte
     · have hlne : x % 2 ≠ x' % 2 := by
         intro hl
         obtain ⟨hxx, hyy⟩ := pixel_addr_inj 2 fb.width_byte x x' y y'
           hk.1 hk'.1 (by omega) hl
         exact hne (by rw [hxx, hyy])
       have hl2 : x % 2 < 2 := Nat.mod_lt _ (by norm_num)
       have hl2' : x' % 2 < 2 := Nat.mod_lt _ (by norm_num)
       rw [heq, getD_set_self _ _ _ haddr]
       exact congrArg some (color_byte_frame _ hb _ hl2 _ hl2' hlne _
         (Nat.lt_succ_of_le Nat.and_le_right))
     · rw [getD_set_ne _ _ _ _ (fun h => heq h.symm)])

lemma set_pixel_buffer_shape (fb : Framebuffer) (x y c : Nat)
    (hx : x < fb.width) (hy : y < fb.height) :
    ∃ nb : Nat, fb_set_pixel fb x y c =
      { fb with buffer := fb.buffer.set (pixel_addr fb x y) nb } := by
  cases hfmt : fb.pixel_format with
  | mono =>
      simp only [pixel_addr, hfmt]
      exact ⟨_, by rw [fb_set_pixel_mono fb hfmt x y c hx hy, hfmt]⟩
  | gray4 =>
      simp only [pixel_addr, hfmt]
      exact ⟨_, by rw [fb_set_pixel_gray fb hfmt x y c hx hy, hfmt]⟩
  | color4 =>
      simp only [pixel_addr, hfmt]
      exact ⟨_, by rw [fb_set_pixel_color fb (Or.inl hfmt) x y c hx hy, hfmt]⟩
  | color7 =>
      simp only [pixel_addr, hfmt]
      exact ⟨_, by rw [fb_set_pixel_color fb (Or.inr hfmt) x y c hx hy, hfmt]⟩

/-- C10: an in-bounds `set_pixel(x, y, c)` rewrites at most the single
buffer byte at the pixel's address, leaves every other byte and all the
metadata fields (width, height, pixel_format, width_byte, buffer_size,
buffer length) unchanged, and consequently every other in-bounds pixel
reads back its previous value. -/
theorem c10_set_pixel_frame (fb : Framebuffer) (hwf : FbWF fb) (x y c : Nat)
    (hx : x < fb.width) (hy : y < fb.height) :
    (fb_set_pixel fb x y c).width = fb.width ∧
    (fb_set_pixel fb x y c).height = fb.height ∧
    (fb_set_pixel fb x y c).pixel_format = fb.pixel_format ∧
    (fb_set_pixel fb x y c).width_byte = fb.width_byte ∧
    (fb_set_pixel fb x y c).buffer_size = fb.buffer_size ∧
    (fb_set_pixel fb x y c).buffer.length = fb.buffer.length ∧
    (∀ i : Nat, i ≠ pixel_addr fb x y →
      (fb_set_pixel fb x y c).buffer.getD i 0 = fb.buffer.getD i 0) ∧
    (∀ x' y' : Nat, x' < fb.width → y' < fb.height → (x', y') ≠ (x, y) →
      fb_get_pixel (fb_set_pixel fb x y c) x' y' = fb_get_pixel fb x' y') := by
  obtain ⟨nb, hset⟩ := set_pixel_buffer_shape fb x y c hx hy
  refine ⟨by rw [hset], by rw [hset], by rw [hset], by rw [hset],
    by rw [hset], by rw [hset]; exact List.length_set fb.buffer _ _,
    ?_, ?_⟩
  · intro i hi
    rw [hset]
    exact getD_set_ne _ _ _ _ (fun h => hi h.symm)
  · intro x' y' hx' hy' hne
    cases hfmt : fb.pixel_format with
    | mono => exact frame_mono fb hwf hfmt x y c x' y' hx hy hx' hy' hne
    | gray4 => exact frame_gray fb hwf hfmt x y c x' y' hx hy hx' hy' hne
    | color4 =>
        exact frame_color fb hwf (Or.inl hfmt) x y c x' y' hx hy hx' hy' hne
    | color7 =>
        exact frame_color fb hwf (Or.inr hfmt) x y c x' y' hx hy hx' hy' hne

/-- Witness for C10: on a 4×2 Gray4 framebuffer, writing pixel (1,1)
leaves pixel (0,1) (same byte) and pixel (2,0) (other byte) unchanged,
and all metadata intact. -/
theorem c10_set_pixel_frame_witness :
    fb_get_pixel (fb_set_pixel ⟨4, 2, .gray4, 1, 2, [0x1B, 0x2D]⟩ 1 1 2) 0 1 =
      fb_get_pixel ⟨4, 2, .gray4, 1, 2, [0x1B, 0x2D]⟩ 0 1 ∧
    fb_get_pixel (fb_set_pixel ⟨4, 2, .gray4, 1, 2, [0x1B, 0x2D]⟩ 1 1 2) 2 0 =
      fb_get_pixel ⟨4, 2, .gray4, 1, 2, [0x1B, 0x2D]⟩ 2 0 ∧
    (fb_set_pixel ⟨4, 2, .gray4, 1, 2, [0x1B, 0x2D]⟩ 1 1 2).buffer_size = 2 := by
  have h := c10_set_pixel_frame ⟨4, 2, .gray4, 1, 2, [0x1B, 0x2D]⟩
    (by refine ⟨by decide, by decide, by decide, by decide, rfl, rfl, rfl, ?_⟩
        decide) 1 1 2 (by decide) (by decide)
  exact ⟨h.2.2.2.2.2.2.2 0 1 (by decide) (by decide) (by decide),
    h.2.2.2.2.2.2.2 2 0 (by decide) (by decide) (by decide),
    h.2.2.2.2.1⟩

end ChromaWave
